import Mathlib

/-!
Verification development for a PDF-to-image batch converter.

The source program converts each page of each PDF in an input folder to a
JPEG/PNG file.  We embed the pure decision logic of `converter.py` and
`config.py`:

* output-path derivation (`get_output_path`),
* the document-level skip policy (`should_skip_pdf`),
* crop-bound arithmetic (`computeBounds`, Python `int()` truncation on
  exact rationals standing in for the float percentages),
* the per-page conversion loop of `convert_pdf` with its per-page
  exception isolation, modelled by an abstract renderer in which a page
  render or encode step either succeeds or fails,
* final status classification,
* batch aggregation (`BatchResult.add`, `convert_batch`) with fail-fast.

Filesystem and renderer effects are modelled by explicit function-valued
environments (`FS`, `Doc`): file existence, directory existence, directory
listing, document opening, page rendering and encoding outcomes.
-/

namespace Pdf2Jpg

/-! ### Decimal formatting (Python `f"{n:03d}"`) -/

/-- One decimal digit to its character; digits come from `Nat.digits 10`,
so the catch-all branch is never hit on real inputs. -/
def digitToChar (d : Nat) : Char :=
  if d = 0 then '0' else if d = 1 then '1' else if d = 2 then '2'
  else if d = 3 then '3' else if d = 4 then '4' else if d = 5 then '5'
  else if d = 6 then '6' else if d = 7 then '7' else if d = 8 then '8'
  else if d = 9 then '9' else 'x'

/-- Inverse of `digitToChar` on decimal digits. -/
def charDigit (c : Char) : Nat :=
  if c = '0' then 0 else if c = '1' then 1 else if c = '2' then 2
  else if c = '3' then 3 else if c = '4' then 4 else if c = '5' then 5
  else if c = '6' then 6 else if c = '7' then 7 else if c = '8' then 8
  else if c = '9' then 9 else 0

/-- Decimal rendering of a positive natural, most significant digit first
(the digit characters of Python `str(n)` for `n ≥ 1`). -/
def natChars (n : Nat) : List Char :=
  ((Nat.digits 10 n).map digitToChar).reverse

/-- Python `f"{n:03d}"`: decimal digits of `n` left-padded with zeros to
width at least 3. -/
def fmt03 (n : Nat) : List Char :=
  if n = 0 then ['0', '0', '0']
  else if n < 10 then '0' :: '0' :: natChars n
  else if n < 100 then '0' :: natChars n
  else natChars n

/-- Read a big-endian digit string back into a natural number; leading
zero padding is ignored. -/
def decodePad (cs : List Char) : Nat :=
  Nat.ofDigits 10 (cs.reverse.map charDigit)

theorem charDigit_digitToChar {d : Nat} (hd : d < 10) :
    charDigit (digitToChar d) = d := by
  interval_cases d <;> decide

theorem digitToChar_ne_dot (d : Nat) : digitToChar d ≠ '.' := by
  unfold digitToChar
  split_ifs <;> decide

theorem map_charDigit_natChars (n : Nat) :
    (natChars n).reverse.map charDigit = Nat.digits 10 n := by
  unfold natChars
  rw [List.reverse_reverse, List.map_map]
  calc (Nat.digits 10 n).map (charDigit ∘ digitToChar)
      = (Nat.digits 10 n).map id := by
        apply List.map_congr_left
        intro d hd
        exact charDigit_digitToChar (Nat.digits_lt_base (by norm_num) hd)
    _ = Nat.digits 10 n := List.map_id _

theorem decodePad_natChars (n : Nat) : decodePad (natChars n) = n := by
  unfold decodePad
  rw [map_charDigit_natChars, Nat.ofDigits_digits]

theorem decodePad_fmt03 (n : Nat) : decodePad (fmt03 n) = n := by
  unfold fmt03
  split_ifs with h0 h10 h100
  · subst h0; decide
  · show decodePad ('0' :: '0' :: natChars n) = n
    unfold decodePad
    rw [show ('0' :: '0' :: natChars n).reverse = (natChars n).reverse ++ ['0', '0'] by simp]
    rw [List.map_append, map_charDigit_natChars, Nat.ofDigits_append]
    simp [charDigit, Nat.ofDigits, Nat.ofDigits_digits]
  · show decodePad ('0' :: natChars n) = n
    unfold decodePad
    rw [show ('0' :: natChars n).reverse = (natChars n).reverse ++ ['0'] by simp]
    rw [List.map_append, map_charDigit_natChars, Nat.ofDigits_append]
    simp [charDigit, Nat.ofDigits, Nat.ofDigits_digits]
  · exact decodePad_natChars n

theorem fmt03_inj {m n : Nat} (h : fmt03 m = fmt03 n) : m = n := by
  have hm := decodePad_fmt03 m
  rw [h, decodePad_fmt03] at hm
  exact hm.symm

theorem dot_not_mem_natChars (n : Nat) : '.' ∉ natChars n := by
  unfold natChars
  intro hmem
  rw [List.mem_reverse, List.mem_map] at hmem
  obtain ⟨d, _, hd⟩ := hmem
  exact digitToChar_ne_dot d hd

theorem dot_not_mem_fmt03 (n : Nat) : '.' ∉ fmt03 n := by
  unfold fmt03
  split_ifs with h0 h10 h100
  · decide
  · intro hmem
    rcases hmem with _ | ⟨_, hmem⟩
    rcases hmem with _ | ⟨_, hmem⟩
    exact dot_not_mem_natChars n hmem
  · intro hmem
    rcases hmem with _ | ⟨_, hmem⟩
    exact dot_not_mem_natChars n hmem
  · exact dot_not_mem_natChars n

theorem three_le_length_fmt03 (n : Nat) : 3 ≤ (fmt03 n).length := by
  unfold fmt03
  split_ifs with h0 h10 h100
  · decide
  · have hn : Nat.digits 10 n ≠ [] := Nat.digits_ne_nil_iff_ne_zero.mpr h0
    have hpos := List.length_pos.mpr hn
    simp only [natChars, List.length_cons, List.length_reverse, List.length_map]
    omega
  · have hn : n ≠ 0 := h0
    have : (Nat.digits 10 n).length = Nat.log 10 n + 1 :=
      Nat.digits_len 10 n (by norm_num) hn
    have hlog : 1 ≤ Nat.log 10 n := by
      rw [← Nat.pow_le_iff_le_log (by norm_num) hn]
      simpa using Nat.le_of_not_lt h10
    simp [natChars, this]
    omega
  · have hn : n ≠ 0 := h0
    have : (Nat.digits 10 n).length = Nat.log 10 n + 1 :=
      Nat.digits_len 10 n (by norm_num) hn
    have hlog : 2 ≤ Nat.log 10 n := by
      rw [← Nat.pow_le_iff_le_log (by norm_num) hn]
      simpa using Nat.le_of_not_lt h100
    simp [natChars, this]
    omega

/-- Two dot-free prefixes followed by a dot are equal when the full
strings are equal. -/
theorem append_dot_inj :
    ∀ (A B r1 r2 : List Char), '.' ∉ A → '.' ∉ B →
      A ++ '.' :: r1 = B ++ '.' :: r2 → A = B
  | [], [], _, _, _, _, _ => rfl
  | [], b :: B, r1, r2, _, hB, h => by
      simp only [List.nil_append, List.cons_append, List.cons.injEq] at h
      exact absurd (h.1 ▸ List.mem_cons_self b B) (h.1 ▸ hB)
  | a :: A, [], r1, r2, hA, _, h => by
      simp only [List.nil_append, List.cons_append, List.cons.injEq] at h
      exact absurd (h.1 ▸ List.mem_cons_self a A) (h.1 ▸ hA)
  | a :: A, b :: B, r1, r2, hA, hB, h => by
      simp only [List.cons_append, List.cons.injEq] at h
      have := append_dot_inj A B r1 r2 (fun hm => hA (List.mem_cons_of_mem a hm))
        (fun hm => hB (List.mem_cons_of_mem b hm)) h.2
      rw [h.1, this]

/-! ### Paths and path naming (`get_output_path`, `Path.stem`) -/

/-- A filesystem path: a directory plus a file name, both as character
lists (the only path structure the program observes). -/
structure FsPath where
  dir : List Char
  file : List Char
deriving DecidableEq

/-- Python `Path.stem`: the file name without its final extension; a name
whose only dot is at position 0, or with no dot, is its own stem. -/
def stemOf (file : List Char) : List Char :=
  if '.' ∈ file then
    let lastDot := file.length - 1 - file.reverse.indexOf '.'
    let pre := file.take lastDot
    if pre.isEmpty then file else pre
  else file

/-- `get_output_path` of `converter.py`: output folder joined with
`{stem}_{page_num + 1:03d}.{fmt}` (page number 1-indexed in the name). -/
def get_output_path (pdf_path : FsPath) (page_num : Nat)
    (output_folder : List Char) (fmt : List Char) : FsPath :=
  ⟨output_folder, stemOf pdf_path.file ++ '_' :: (fmt03 (page_num + 1) ++ '.' :: fmt)⟩

/-! ### Settings (`config.py`) -/

/-- `CropSettings` of `config.py`.  The Python floats are modelled as
exact rationals. -/
structure CropSettings where
  enabled : Bool
  horizontal_start : ℚ
  horizontal_end : ℚ
  vertical_start : ℚ
  vertical_end : ℚ

/-- `Settings` of `config.py` (the fields the conversion engine reads;
`colorspace` and `dpi` are carried but only forwarded to the renderer). -/
structure Settings where
  input_folder : List Char
  output_folder : List Char
  dpi : Nat
  format : List Char
  jpg_quality : Nat
  colorspace : List Char
  overwrite : Bool
  skip_if_exists : Bool
  max_pages_per_pdf : Nat
  fail_fast : Bool
  crop : CropSettings

/-! ### Crop-bound arithmetic (`convert_pdf`, lines 169-175) -/

/-- Python `int()` on a rational: truncation toward zero. -/
def pyInt (q : ℚ) : ℤ :=
  if 0 ≤ q then ⌊q⌋ else ⌈q⌉

/-- The crop-bound computation inlined in `convert_pdf`:
`x0 = int(width * horizontal_start / 100)` and so on.  Returns
`(x0, x1, y0, y1)` in the order the code computes them. -/
def computeBounds (width height : Nat) (crop : CropSettings) : ℤ × ℤ × ℤ × ℤ :=
  (pyInt ((width : ℚ) * crop.horizontal_start / 100),
   pyInt ((width : ℚ) * crop.horizontal_end / 100),
   pyInt ((height : ℚ) * crop.vertical_start / 100),
   pyInt ((height : ℚ) * crop.vertical_end / 100))

/-! ### Results -/

/-- Document status; `partialConv` models the Python string literal
`"partial"`. -/
inductive Status where
  | success
  | partialConv
  | failed
  | skipped
deriving DecidableEq

/-- `ConversionResult` of `converter.py`. -/
@[ext]
structure ConversionResult where
  pdf_path : FsPath
  status : Status
  pages_total : Nat := 0
  pages_converted : Nat := 0
  pages_failed : Nat := 0
  error_message : Option String := none
  output_files : List FsPath := []
deriving DecidableEq

/-- `BatchResult` of `converter.py`. -/
@[ext]
structure BatchResult where
  total_files : Nat := 0
  success_count : Nat := 0
  partial_count : Nat := 0
  failed_count : Nat := 0
  skipped_count : Nat := 0
  results : List ConversionResult := []
deriving DecidableEq

/-- `BatchResult.add`: append the result and bump the counter matching
its status. -/
def BatchResult.add (b : BatchResult) (result : ConversionResult) : BatchResult :=
  let b' := { b with results := b.results ++ [result], total_files := b.total_files + 1 }
  match result.status with
  | .success => { b' with success_count := b'.success_count + 1 }
  | .partialConv => { b' with partial_count := b'.partial_count + 1 }
  | .failed => { b' with failed_count := b'.failed_count + 1 }
  | .skipped => { b' with skipped_count := b'.skipped_count + 1 }

/-! ### The external renderer and filesystem, as environments -/

/-- A rendered pixel buffer; the conversion logic only observes its
dimensions. -/
structure Raster where
  width : Nat
  height : Nat

/-- An opened document as the renderer exposes it.  `render i = none`
models `load_page`/`get_pixmap` raising for page `i`; `saveOk i = false`
models the crop/encode/save step raising for page `i`. -/
structure Doc where
  pageCount : Nat
  isEncrypted : Bool
  render : Nat → Option Raster
  saveOk : Nat → Bool

/-- Outcome of `pymupdf.open`: success, `FileDataError` (corrupt file),
or any other exception. -/
inductive OpenResult where
  | ok (doc : Doc)
  | corrupt (msg : String)
  | failure (msg : String)

/-- The filesystem/renderer environment a run observes. -/
structure FS where
  fileExists : FsPath → Bool
  dirExists : List Char → Bool
  listPdfs : List Char → List FsPath
  openDoc : FsPath → OpenResult

/-! ### Skip policy and per-document conversion (`convert_pdf`) -/

/-- `should_skip_pdf` of `converter.py`: never skip when skipping is
disabled or overwrite is on; otherwise skip iff the page-1 output file
already exists. -/
def should_skip_pdf (fs : FS) (pdf_path : FsPath) (s : Settings) : Bool :=
  if !s.skip_if_exists || s.overwrite then false
  else
    let first_page_path := get_output_path pdf_path 0 s.output_folder s.format
    if fs.fileExists first_page_path then true else false

/-- Number of pages the loop processes:
`min(len(doc), max_pages_per_pdf if max_pages_per_pdf > 0 else len(doc))`. -/
def pagesToProcess (doc : Doc) (s : Settings) : Nat :=
  min doc.pageCount (if 0 < s.max_pages_per_pdf then s.max_pages_per_pdf else doc.pageCount)

/-- One iteration of the page loop of `convert_pdf`: the body for page
`page_num` acting on the accumulated result.  An existing output file
(with overwrite off) counts as converted without rendering; otherwise the
page is rendered, optionally cropped, and saved, any exception being
caught and counted as a page failure. -/
def pageStep (fs : FS) (doc : Doc) (s : Settings) (pdf_path : FsPath)
    (acc : ConversionResult) (page_num : Nat) : ConversionResult :=
  let output_path := get_output_path pdf_path page_num s.output_folder s.format
  if fs.fileExists output_path && !s.overwrite then
    { acc with pages_converted := acc.pages_converted + 1,
               output_files := acc.output_files ++ [output_path] }
  else
    match doc.render page_num with
    | none => { acc with pages_failed := acc.pages_failed + 1 }
    | some pix =>
        let _bounds := if s.crop.enabled then
          some (computeBounds pix.width pix.height s.crop) else none
        if doc.saveOk page_num then
          { acc with pages_converted := acc.pages_converted + 1,
                     output_files := acc.output_files ++ [output_path] }
        else
          { acc with pages_failed := acc.pages_failed + 1 }

/-- Whether the body of the page loop records page `page_num` as failed;
mirrors the branch structure of `pageStep`. -/
def pageFails (fs : FS) (doc : Doc) (s : Settings) (pdf_path : FsPath)
    (page_num : Nat) : Bool :=
  let output_path := get_output_path pdf_path page_num s.output_folder s.format
  if fs.fileExists output_path && !s.overwrite then false
  else
    match doc.render page_num with
    | none => true
    | some _ => !doc.saveOk page_num

/-- The final status classification at the end of `convert_pdf`
(lines 210-225). -/
def classifyResult (r : ConversionResult) : ConversionResult :=
  if r.pages_failed = 0 then { r with status := .success }
  else if 0 < r.pages_converted then { r with status := .partialConv }
  else { r with status := .failed, error_message := some "All pages failed to render" }

/-- `convert_pdf` of `converter.py`: skip check, open, encryption check,
page loop, classification. -/
def convert_pdf (fs : FS) (s : Settings) (pdf_path : FsPath) : ConversionResult :=
  let result : ConversionResult := { pdf_path := pdf_path, status := .success }
  if should_skip_pdf fs pdf_path s then
    { result with status := .skipped }
  else
    match fs.openDoc pdf_path with
    | .corrupt msg =>
        { result with status := .failed, error_message := some ("Corrupt PDF: " ++ msg) }
    | .failure msg =>
        { result with status := .failed, error_message := some msg }
    | .ok doc =>
        if doc.isEncrypted then
          { result with status := .failed, error_message := some "Password protected" }
        else
          let r1 := { result with pages_total := doc.pageCount }
          let r2 := (List.range (pagesToProcess doc s)).foldl
            (pageStep fs doc s pdf_path) r1
          classifyResult r2

/-! ### Batch conversion (`convert_batch`) -/

/-- Lexicographic comparison of character lists (Python string order on
code points). -/
def lexLe : List Char → List Char → Bool
  | [], _ => true
  | _ :: _, [] => false
  | a :: as, b :: bs => if a = b then lexLe as bs else decide (a.toNat < b.toNat)

/-- Sort key of a path. -/
def pathKey (p : FsPath) : List Char :=
  p.dir ++ '/' :: p.file

/-- Stable insertion into a sorted list. -/
def insertSorted (p : FsPath) : List FsPath → List FsPath
  | [] => [p]
  | q :: qs => if lexLe (pathKey p) (pathKey q) then p :: q :: qs
               else q :: insertSorted p qs

/-- `sorted(...)` over the globbed PDF list (stable insertion sort). -/
def sortPaths : List FsPath → List FsPath
  | [] => []
  | p :: ps => insertSorted p (sortPaths ps)

/-- The document loop of `convert_batch`: convert each file, add the
result, and stop early when fail-fast is on and the document failed. -/
def convertBatchLoop (fs : FS) (s : Settings) : List FsPath → BatchResult → BatchResult
  | [], b => b
  | pdf_path :: rest, b =>
      let result := convert_pdf fs s pdf_path
      let b' := b.add result
      if s.fail_fast ∧ result.status = .failed then b'
      else convertBatchLoop fs s rest b'

/-- `convert_batch` of `converter.py`.  The `mkdir` of the output folder
is a filesystem side effect with no influence on the returned value and
is not modelled. -/
def convert_batch (fs : FS) (s : Settings) : BatchResult :=
  let batch_result : BatchResult := {}
  if !fs.dirExists s.input_folder then batch_result
  else
    let pdf_files := sortPaths (fs.listPdfs s.input_folder)
    if pdf_files = [] then batch_result
    else convertBatchLoop fs s pdf_files batch_result

/-! ### Characterizing the page loop -/

/-- One page-loop iteration either records a failure or records a
conversion with exactly one appended output path, according to
`pageFails`. -/
theorem pageStep_char (fs : FS) (doc : Doc) (s : Settings) (pdf_path : FsPath)
    (acc : ConversionResult) (page_num : Nat) :
    pageStep fs doc s pdf_path acc page_num =
      if pageFails fs doc s pdf_path page_num then
        { acc with pages_failed := acc.pages_failed + 1 }
      else
        { acc with pages_converted := acc.pages_converted + 1,
                   output_files := acc.output_files ++
                     [get_output_path pdf_path page_num s.output_folder s.format] } := by
  unfold pageStep pageFails
  by_cases hex : (fs.fileExists (get_output_path pdf_path page_num s.output_folder s.format)
      && !s.overwrite) = true
  · simp [hex]
  · simp only [Bool.not_eq_true] at hex
    simp only [hex]
    cases hr : doc.render page_num with
    | none => simp
    | some pix =>
        cases hs : doc.saveOk page_num <;> simp [hs]

/-- The page loop processes every index of its input list: failures and
conversions partition the list, each converted page appends exactly its
own output path in order, and no other field changes. -/
theorem foldl_pageStep (fs : FS) (doc : Doc) (s : Settings) (pdf_path : FsPath)
    (l : List Nat) : ∀ acc : ConversionResult,
    l.foldl (pageStep fs doc s pdf_path) acc =
      { acc with
        pages_failed := acc.pages_failed
          + (l.filter (fun i => pageFails fs doc s pdf_path i)).length,
        pages_converted := acc.pages_converted
          + (l.filter (fun i => !pageFails fs doc s pdf_path i)).length,
        output_files := acc.output_files
          ++ (l.filter (fun i => !pageFails fs doc s pdf_path i)).map
              (fun i => get_output_path pdf_path i s.output_folder s.format) } := by
  induction l with
  | nil => intro acc; simp
  | cons i l ih =>
      intro acc
      rw [List.foldl_cons, pageStep_char]
      by_cases hf : pageFails fs doc s pdf_path i = true
      · rw [if_pos hf, ih]
        refine ConversionResult.ext ?_ ?_ ?_ ?_ ?_ ?_ ?_ <;>
          simp [List.filter_cons, hf] <;> omega
      · rw [if_neg hf, ih]
        simp only [Bool.not_eq_true] at hf
        refine ConversionResult.ext ?_ ?_ ?_ ?_ ?_ ?_ ?_ <;>
          simp [List.filter_cons, hf] <;> omega

/-! ### Concrete fixtures used by witnesses and the fail-fast scenario -/

/-- A sample source document path. -/
def samplePdf : FsPath := ⟨"in".data, "report.pdf".data⟩

/-- Default-like settings: jpg output, no overwrite, skip-if-exists on,
no page limit, no fail-fast, crop disabled. -/
def baseSettings : Settings :=
  { input_folder := "in".data, output_folder := "out".data, dpi := 150,
    format := "jpg".data, jpg_quality := 90, colorspace := "rgb".data,
    overwrite := false, skip_if_exists := true, max_pages_per_pdf := 0,
    fail_fast := false,
    crop := ⟨false, 0, 100, 0, 100⟩ }

/-- A well-behaved 3-page document: every page renders and encodes. -/
def sampleDoc : Doc :=
  { pageCount := 3, isEncrypted := false,
    render := fun _ => some ⟨100, 200⟩, saveOk := fun _ => true }

/-- An environment in which every output file already exists. -/
def fsAllExists : FS :=
  { fileExists := fun _ => true, dirExists := fun _ => true,
    listPdfs := fun _ => [], openDoc := fun _ => .ok sampleDoc }

/-- An environment with no output files, in which every document opens
as `sampleDoc`. -/
def fsOpenOk : FS :=
  { fileExists := fun _ => false, dirExists := fun _ => true,
    listPdfs := fun _ => [], openDoc := fun _ => .ok sampleDoc }

/-- An environment whose input directory is missing. -/
def fsNoDir : FS :=
  { fileExists := fun _ => false, dirExists := fun _ => false,
    listPdfs := fun _ => [], openDoc := fun _ => .failure "missing" }

/-! ### Claims -/

/-- Claim C6: `shouldSkipDocument` returns false whenever overwrite is
enabled or skip-if-exists is disabled; otherwise it returns true iff the
page-index-0 output file derived via the path namer already exists. -/
theorem claim_C6 (fs : FS) (pdf_path : FsPath) (s : Settings) :
    ((s.overwrite = true ∨ s.skip_if_exists = false) →
      should_skip_pdf fs pdf_path s = false) ∧
    (s.overwrite = false → s.skip_if_exists = true →
      should_skip_pdf fs pdf_path s
        = fs.fileExists (get_output_path pdf_path 0 s.output_folder s.format)) := by
  constructor
  · rintro (h | h) <;> simp [should_skip_pdf, h]
  · intro ho hk
    simp only [should_skip_pdf, hk, ho, Bool.not_true, Bool.false_or, if_false]
    cases fs.fileExists (get_output_path pdf_path 0 s.output_folder s.format) <;> simp

/-- Witness for C6 at a concrete environment where the page-1 output
exists and skipping is allowed. -/
theorem claim_C6_witness :
    should_skip_pdf fsAllExists samplePdf baseSettings
      = fsAllExists.fileExists
          (get_output_path samplePdf 0 baseSettings.output_folder baseSettings.format) :=
  (claim_C6 fsAllExists samplePdf baseSettings).2 rfl rfl

/-- Claim C5: when the destination file for a page already exists and
overwrite is off, the page-loop body counts the page as converted and
appends its path, without rendering (the right-hand side does not depend
on the document's renderer) and independently of the document-level skip
policy (the right-hand side does not depend on `skip_if_exists`). -/
theorem claim_C5 (fs : FS) (doc : Doc) (s : Settings) (pdf_path : FsPath)
    (acc : ConversionResult) (page_num : Nat)
    (hex : fs.fileExists (get_output_path pdf_path page_num s.output_folder s.format) = true)
    (hov : s.overwrite = false) :
    pageStep fs doc s pdf_path acc page_num =
      { acc with pages_converted := acc.pages_converted + 1,
                 output_files := acc.output_files ++
                   [get_output_path pdf_path page_num s.output_folder s.format] } := by
  unfold pageStep
  simp [hex, hov]

/-- Witness for C5: page 0 of a document whose output already exists. -/
theorem claim_C5_witness :
    pageStep fsAllExists sampleDoc baseSettings samplePdf
        { pdf_path := samplePdf, status := .success } 0 =
      { ({ pdf_path := samplePdf, status := .success } : ConversionResult) with
        pages_converted := ({ pdf_path := samplePdf, status := .success }
          : ConversionResult).pages_converted + 1,
        output_files := ({ pdf_path := samplePdf, status := .success }
          : ConversionResult).output_files ++
          [get_output_path samplePdf 0 baseSettings.output_folder baseSettings.format] } :=
  claim_C5 fsAllExists sampleDoc baseSettings samplePdf
    { pdf_path := samplePdf, status := .success } 0 rfl rfl

/-- Claim C7: the output path is the output directory joined with
`{stem}_{i+1:03d}.{format}`, the page field is zero-padded to at least
3 digits, and the naming is injective in the page index for a fixed
source/output/format triple (determinism is immediate since
`get_output_path` is a function of its arguments). -/
theorem claim_C7 (pdf_path : FsPath) (output_folder fmt : List Char) (i j : Nat) :
    get_output_path pdf_path i output_folder fmt
      = ⟨output_folder, stemOf pdf_path.file ++ '_' :: (fmt03 (i + 1) ++ '.' :: fmt)⟩ ∧
    3 ≤ (fmt03 (i + 1)).length ∧
    (get_output_path pdf_path i output_folder fmt
        = get_output_path pdf_path j output_folder fmt → i = j) := by
  refine ⟨rfl, three_le_length_fmt03 _, fun h => ?_⟩
  have hfile := congrArg FsPath.file h
  simp only [get_output_path] at hfile
  have h2 := List.append_cancel_left hfile
  simp only [List.cons.injEq, true_and] at h2
  have h3 := append_dot_inj (fmt03 (i + 1)) (fmt03 (j + 1)) fmt fmt
    (dot_not_mem_fmt03 _) (dot_not_mem_fmt03 _) h2
  have := fmt03_inj h3
  omega

/-- Witness for C7 at page index 2 (1-based page number 3). -/
theorem claim_C7_witness :
    (get_output_path samplePdf 2 ("out".data) ("jpg".data)
      = ⟨"out".data, stemOf samplePdf.file ++ '_' :: (fmt03 3 ++ '.' :: "jpg".data)⟩) ∧
    (2 : Nat) = 2 :=
  ⟨(claim_C7 samplePdf ("out".data) ("jpg".data) 2 2).1,
   (claim_C7 samplePdf ("out".data) ("jpg".data) 2 2).2.2 rfl⟩

/-- `pyInt` is floor on nonnegative arguments. -/
theorem pyInt_eq_floor {q : ℚ} (h : 0 ≤ q) : pyInt q = ⌊q⌋ := if_pos h

/-- Bounds of a single axis of the crop computation: nonnegative,
monotone in the percentage, and at most the dimension. -/
theorem cropAxis_bounds (dim : Nat) (a b : ℚ) (ha : 0 ≤ a) (hab : a ≤ b)
    (hb : b ≤ 100) :
    0 ≤ pyInt ((dim : ℚ) * a / 100) ∧
    pyInt ((dim : ℚ) * a / 100) ≤ pyInt ((dim : ℚ) * b / 100) ∧
    pyInt ((dim : ℚ) * b / 100) ≤ (dim : ℤ) := by
  have hdim : (0 : ℚ) ≤ (dim : ℚ) := Nat.cast_nonneg dim
  have h1 : (0 : ℚ) ≤ (dim : ℚ) * a / 100 :=
    div_nonneg (mul_nonneg hdim ha) (by norm_num)
  have hmono : (dim : ℚ) * a / 100 ≤ (dim : ℚ) * b / 100 := by
    apply div_le_div_of_nonneg_right _ (by norm_num)
    exact mul_le_mul_of_nonneg_left hab hdim
  have h2 : (0 : ℚ) ≤ (dim : ℚ) * b / 100 := le_trans h1 hmono
  have hub : (dim : ℚ) * b / 100 ≤ (dim : ℚ) := by
    rw [div_le_iff₀ (by norm_num : (0 : ℚ) < 100)]
    calc (dim : ℚ) * b ≤ (dim : ℚ) * 100 := mul_le_mul_of_nonneg_left hb hdim
      _ = (dim : ℚ) * 100 := rfl
  rw [pyInt_eq_floor h1, pyInt_eq_floor h2]
  refine ⟨Int.floor_nonneg.mpr h1, Int.floor_le_floor hmono, ?_⟩
  have hf := Int.floor_le_floor hub
  rwa [Int.floor_natCast] at hf

/-- The crop settings of the C1 counterexample: a valid configuration
(`0 ≤ 0 < 50 ≤ 100` on both axes). -/
def cexCrop : CropSettings := ⟨true, 0, 50, 0, 50⟩

theorem half_floor : ⌊(1 / 2 : ℚ)⌋ = 0 := by
  rw [Int.floor_eq_zero_iff]
  constructor <;> norm_num

theorem cex_eval : computeBounds 1 1 cexCrop = (0, 0, 0, 0) := by
  simp only [computeBounds, cexCrop, pyInt]
  norm_num [half_floor]

/-- Counterexample to claim C1 as stated: on a positive 1×1 raster with
the valid crop settings `cexCrop`, the computation yields `x0 = x1 = 0`,
so the claimed strict inequality `x0 < x1` fails. -/
theorem claim_C1_counterexample :
    (0 ≤ cexCrop.horizontal_start ∧ cexCrop.horizontal_start < cexCrop.horizontal_end ∧
      cexCrop.horizontal_end ≤ 100) ∧
    (0 ≤ cexCrop.vertical_start ∧ cexCrop.vertical_start < cexCrop.vertical_end ∧
      cexCrop.vertical_end ≤ 100) ∧
    0 < (1 : Nat) ∧
    (computeBounds 1 1 cexCrop).1 = 0 ∧ (computeBounds 1 1 cexCrop).2.1 = 0 ∧
    ¬ (computeBounds 1 1 cexCrop).1 < (computeBounds 1 1 cexCrop).2.1 := by
  refine ⟨⟨by norm_num [cexCrop], by norm_num [cexCrop], by norm_num [cexCrop]⟩,
    ⟨by norm_num [cexCrop], by norm_num [cexCrop], by norm_num [cexCrop]⟩,
    one_pos, ?_, ?_, ?_⟩ <;> rw [cex_eval] <;> decide

/-- Claim C1 amended: for every valid `CropSettings` and positive raster
dimensions, the computed bounds satisfy `0 ≤ x0 ≤ x1 ≤ width` and
`0 ≤ y0 ≤ y1 ≤ height`; the strict inequalities of the original claim can
fail on small rasters (see the counterexample), only the non-strict ones
hold in general. -/
theorem claim_C1_amended (width height : Nat) (crop : CropSettings)
    (hhs : 0 ≤ crop.horizontal_start)
    (hhlt : crop.horizontal_start < crop.horizontal_end)
    (hhe : crop.horizontal_end ≤ 100)
    (hvs : 0 ≤ crop.vertical_start)
    (hvlt : crop.vertical_start < crop.vertical_end)
    (hve : crop.vertical_end ≤ 100) :
    0 ≤ (computeBounds width height crop).1 ∧
    (computeBounds width height crop).1 ≤ (computeBounds width height crop).2.1 ∧
    (computeBounds width height crop).2.1 ≤ (width : ℤ) ∧
    0 ≤ (computeBounds width height crop).2.2.1 ∧
    (computeBounds width height crop).2.2.1 ≤ (computeBounds width height crop).2.2.2 ∧
    (computeBounds width height crop).2.2.2 ≤ (height : ℤ) := by
  obtain ⟨hx0, hx01, hx1⟩ :=
    cropAxis_bounds width crop.horizontal_start crop.horizontal_end hhs hhlt.le hhe
  obtain ⟨hy0, hy01, hy1⟩ :=
    cropAxis_bounds height crop.vertical_start crop.vertical_end hvs hvlt.le hve
  exact ⟨hx0, hx01, hx1, hy0, hy01, hy1⟩

/-- Witness for the amended C1 on a 10×20 raster with crop 10%-90% and
5%-95%. -/
theorem claim_C1_witness :
    0 ≤ (computeBounds 10 20 ⟨true, 10, 90, 5, 95⟩).1 ∧
    (computeBounds 10 20 ⟨true, 10, 90, 5, 95⟩).1
      ≤ (computeBounds 10 20 ⟨true, 10, 90, 5, 95⟩).2.1 ∧
    (computeBounds 10 20 ⟨true, 10, 90, 5, 95⟩).2.1 ≤ ((10 : Nat) : ℤ) ∧
    0 ≤ (computeBounds 10 20 ⟨true, 10, 90, 5, 95⟩).2.2.1 ∧
    (computeBounds 10 20 ⟨true, 10, 90, 5, 95⟩).2.2.1
      ≤ (computeBounds 10 20 ⟨true, 10, 90, 5, 95⟩).2.2.2 ∧
    (computeBounds 10 20 ⟨true, 10, 90, 5, 95⟩).2.2.2 ≤ ((20 : Nat) : ℤ) :=
  claim_C1_amended 10 20 ⟨true, 10, 90, 5, 95⟩ (by norm_num) (by norm_num)
    (by norm_num) (by norm_num) (by norm_num) (by norm_num)

/-- A document that passes the skip check, opens, and is not encrypted is
classified from its page loop. -/
theorem convert_pdf_loop_eq (fs : FS) (s : Settings) (pdf_path : FsPath) (doc : Doc)
    (hskip : should_skip_pdf fs pdf_path s = false)
    (hopen : fs.openDoc pdf_path = OpenResult.ok doc)
    (henc : doc.isEncrypted = false) :
    convert_pdf fs s pdf_path =
      classifyResult ((List.range (pagesToProcess doc s)).foldl
        (pageStep fs doc s pdf_path)
        { pdf_path := pdf_path, status := .success, pages_total := doc.pageCount }) := by
  unfold convert_pdf
  rw [hskip, hopen]
  simp [henc]

/-- Classification never changes the counters, paths, totals, or source
path. -/
theorem classifyResult_fields (r : ConversionResult) :
    (classifyResult r).pages_failed = r.pages_failed ∧
    (classifyResult r).pages_converted = r.pages_converted ∧
    (classifyResult r).output_files = r.output_files ∧
    (classifyResult r).pages_total = r.pages_total ∧
    (classifyResult r).pdf_path = r.pdf_path := by
  unfold classifyResult
  split_ifs <;> simp

/-- The three-way classification, in the order the code checks it. -/
theorem classifyResult_status (r : ConversionResult) :
    (r.pages_failed = 0 → classifyResult r = { r with status := .success }) ∧
    (r.pages_failed ≠ 0 → 0 < r.pages_converted →
      classifyResult r = { r with status := .partialConv }) ∧
    (r.pages_failed ≠ 0 → r.pages_converted = 0 →
      classifyResult r = { r with status := Status.failed, error_message := some "All pages failed to render" }) := by
  unfold classifyResult
  refine ⟨fun h => by rw [if_pos h], fun h hc => by rw [if_neg h, if_pos hc],
    fun h hc => ?_⟩
  rw [if_neg h, if_neg (by omega)]

/-- Claim C2: for every document that reaches the page loop the final
status follows exactly the order: no failed pages gives success (hence a
zero-page document is success); otherwise any converted page gives
partial; otherwise failed with message "All pages failed to render". -/
theorem claim_C2 (fs : FS) (s : Settings) (pdf_path : FsPath) (doc : Doc)
    (hskip : should_skip_pdf fs pdf_path s = false)
    (hopen : fs.openDoc pdf_path = OpenResult.ok doc)
    (henc : doc.isEncrypted = false) :
    ((convert_pdf fs s pdf_path).pages_failed = 0 →
      (convert_pdf fs s pdf_path).status = .success) ∧
    ((convert_pdf fs s pdf_path).pages_failed ≠ 0 →
      0 < (convert_pdf fs s pdf_path).pages_converted →
      (convert_pdf fs s pdf_path).status = .partialConv) ∧
    ((convert_pdf fs s pdf_path).pages_failed ≠ 0 →
      (convert_pdf fs s pdf_path).pages_converted = 0 →
      (convert_pdf fs s pdf_path).status = .failed ∧
      (convert_pdf fs s pdf_path).error_message = some "All pages failed to render") ∧
    (doc.pageCount = 0 → (convert_pdf fs s pdf_path).status = .success) := by
  have hcp := convert_pdf_loop_eq fs s pdf_path doc hskip hopen henc
  set r2 := (List.range (pagesToProcess doc s)).foldl (pageStep fs doc s pdf_path)
    { pdf_path := pdf_path, status := .success, pages_total := doc.pageCount } with hr2
  rw [hcp]
  have hfields := classifyResult_fields r2
  have hstat := classifyResult_status r2
  refine ⟨?_, ?_, ?_, ?_⟩
  · intro h
    rw [hfields.1] at h
    rw [hstat.1 h]
  · intro h hc
    rw [hfields.1] at h
    rw [hfields.2.1] at hc
    rw [hstat.2.1 h hc]
  · intro h hc
    rw [hfields.1] at h
    rw [hfields.2.1] at hc
    rw [hstat.2.2 h hc]
    exact ⟨rfl, rfl⟩
  · intro h0
    have hk : pagesToProcess doc s = 0 := by simp [pagesToProcess, h0]
    have hzero : r2.pages_failed = 0 := by rw [hr2, hk]; rfl
    rw [hstat.1 hzero]

/-- Witness for C2: a 3-page document whose pages all convert is
classified success. -/
theorem claim_C2_witness :
    (convert_pdf fsOpenOk baseSettings samplePdf).status = .success :=
  (claim_C2 fsOpenOk baseSettings samplePdf sampleDoc rfl rfl rfl).1 (by decide)

/-- The two halves of a Boolean filter partition a list's length. -/
theorem length_filter_not_add_length_filter {α : Type} (l : List α) (p : α → Bool) :
    (l.filter fun a => !p a).length + (l.filter p).length = l.length := by
  induction l with
  | nil => rfl
  | cons a l ih =>
      by_cases h : p a = true
      · simp only [List.filter_cons, h, Bool.not_true, Bool.false_eq_true, if_false,
          if_true, List.length_cons]
        omega
      · simp only [Bool.not_eq_true] at h
        simp only [List.filter_cons, h, Bool.not_false, Bool.false_eq_true, if_false,
          if_true, List.length_cons]
        omega

/-- Claim C3: once the page loop is reached, every page index of the
processed range is handled: the failure count is exactly the number of
failing indices of the whole range, the conversion count the number of
non-failing ones, and together they exhaust the range, so no page failure
aborts the loop. -/
theorem claim_C3 (fs : FS) (s : Settings) (pdf_path : FsPath) (doc : Doc)
    (hskip : should_skip_pdf fs pdf_path s = false)
    (hopen : fs.openDoc pdf_path = OpenResult.ok doc)
    (henc : doc.isEncrypted = false) :
    (convert_pdf fs s pdf_path).pages_failed
      = ((List.range (pagesToProcess doc s)).filter
          (fun i => pageFails fs doc s pdf_path i)).length ∧
    (convert_pdf fs s pdf_path).pages_converted
      = ((List.range (pagesToProcess doc s)).filter
          (fun i => !pageFails fs doc s pdf_path i)).length ∧
    (convert_pdf fs s pdf_path).pages_converted + (convert_pdf fs s pdf_path).pages_failed
      = pagesToProcess doc s := by
  have hcp := convert_pdf_loop_eq fs s pdf_path doc hskip hopen henc
  rw [hcp]
  rw [foldl_pageStep fs doc s pdf_path (List.range (pagesToProcess doc s))
    { pdf_path := pdf_path, status := .success, pages_total := doc.pageCount }]
  refine ⟨?_, ?_, ?_⟩
  · rw [(classifyResult_fields _).1]
    simp
  · rw [(classifyResult_fields _).2.1]
    simp
  · rw [(classifyResult_fields _).2.1, (classifyResult_fields _).1]
    simp only [Nat.zero_add]
    rw [length_filter_not_add_length_filter, List.length_range]

/-- Witness for C3: pages converted plus pages failed exhaust the range
for a concrete 3-page document. -/
theorem claim_C3_witness :
    (convert_pdf fsOpenOk baseSettings samplePdf).pages_converted
      + (convert_pdf fsOpenOk baseSettings samplePdf).pages_failed
      = pagesToProcess sampleDoc baseSettings :=
  (claim_C3 fsOpenOk baseSettings samplePdf sampleDoc rfl rfl rfl).2.2

/-- Claim C10: every result of `convert_pdf` lists exactly one output
path per counted page, in strictly increasing page order. -/
theorem claim_C10 (fs : FS) (s : Settings) (pdf_path : FsPath) :
    ∃ idxs : List Nat, List.Pairwise (· < ·) idxs ∧
      (convert_pdf fs s pdf_path).output_files
        = idxs.map (fun i => get_output_path pdf_path i s.output_folder s.format) ∧
      (convert_pdf fs s pdf_path).pages_converted = idxs.length := by
  by_cases hskip : should_skip_pdf fs pdf_path s = true
  · refine ⟨[], List.Pairwise.nil, ?_, ?_⟩ <;> simp [convert_pdf, hskip]
  · simp only [Bool.not_eq_true] at hskip
    cases hopen : fs.openDoc pdf_path with
    | corrupt msg =>
        refine ⟨[], List.Pairwise.nil, ?_, ?_⟩ <;> simp [convert_pdf, hskip, hopen]
    | failure msg =>
        refine ⟨[], List.Pairwise.nil, ?_, ?_⟩ <;> simp [convert_pdf, hskip, hopen]
    | ok doc =>
        cases henc : doc.isEncrypted with
        | true =>
            refine ⟨[], List.Pairwise.nil, ?_, ?_⟩ <;>
              simp [convert_pdf, hskip, hopen, henc]
        | false =>
            refine ⟨(List.range (pagesToProcess doc s)).filter
              (fun i => !pageFails fs doc s pdf_path i), ?_, ?_, ?_⟩
            · exact (List.pairwise_lt_range _).sublist (List.filter_sublist _)
            · rw [convert_pdf_loop_eq fs s pdf_path doc hskip hopen henc,
                (classifyResult_fields _).2.2.1,
                foldl_pageStep fs doc s pdf_path]
              simp
            · rw [convert_pdf_loop_eq fs s pdf_path doc hskip hopen henc,
                (classifyResult_fields _).2.1,
                foldl_pageStep fs doc s pdf_path]
              simp

/-- A single `add` preserves the counter/length invariant. -/
theorem BatchResult_add_invariant (b : BatchResult) (r : ConversionResult)
    (h1 : b.total_files = b.success_count + b.partial_count + b.failed_count + b.skipped_count)
    (h2 : b.total_files = b.results.length) :
    (b.add r).total_files = (b.add r).success_count + (b.add r).partial_count
      + (b.add r).failed_count + (b.add r).skipped_count ∧
    (b.add r).total_files = (b.add r).results.length := by
  unfold BatchResult.add
  cases r.status <;> simp <;> omega

/-- The invariant holds along any fold of `add` from an invariant state. -/
theorem foldl_add_invariant (rs : List ConversionResult) :
    ∀ b : BatchResult,
      b.total_files = b.success_count + b.partial_count + b.failed_count + b.skipped_count →
      b.total_files = b.results.length →
      ((rs.foldl BatchResult.add b).total_files
          = (rs.foldl BatchResult.add b).success_count
            + (rs.foldl BatchResult.add b).partial_count
            + (rs.foldl BatchResult.add b).failed_count
            + (rs.foldl BatchResult.add b).skipped_count ∧
        (rs.foldl BatchResult.add b).total_files
          = (rs.foldl BatchResult.add b).results.length) := by
  induction rs with
  | nil => intro b h1 h2; exact ⟨h1, h2⟩
  | cons r rs ih =>
      intro b h1 h2
      rw [List.foldl_cons]
      obtain ⟨g1, g2⟩ := BatchResult_add_invariant b r h1 h2
      exact ih (b.add r) g1 g2

/-- Claim C9: in every `BatchResult` reachable from the empty state by
`add` calls, the file total equals the sum of the four status counters
and equals the number of stored results. -/
theorem claim_C9 (rs : List ConversionResult) :
    (rs.foldl BatchResult.add {}).total_files
      = (rs.foldl BatchResult.add {}).success_count
        + (rs.foldl BatchResult.add {}).partial_count
        + (rs.foldl BatchResult.add {}).failed_count
        + (rs.foldl BatchResult.add {}).skipped_count ∧
    (rs.foldl BatchResult.add {}).total_files
      = (rs.foldl BatchResult.add {}).results.length :=
  foldl_add_invariant rs {} rfl rfl

/-- Claim C8: a missing input directory, or an input directory with no
PDF files, yields the empty `BatchResult` (all counters zero, no
results) instead of an error. -/
theorem claim_C8 (fs : FS) (s : Settings) :
    (fs.dirExists s.input_folder = false → convert_batch fs s = {}) ∧
    (fs.listPdfs s.input_folder = [] → convert_batch fs s = {}) ∧
    ({} : BatchResult).total_files = 0 ∧ ({} : BatchResult).success_count = 0 ∧
    ({} : BatchResult).partial_count = 0 ∧ ({} : BatchResult).failed_count = 0 ∧
    ({} : BatchResult).skipped_count = 0 ∧ ({} : BatchResult).results = [] := by
  refine ⟨?_, ?_, rfl, rfl, rfl, rfl, rfl, rfl⟩
  · intro h
    simp [convert_batch, h]
  · intro h
    by_cases hd : fs.dirExists s.input_folder = true
    · simp [convert_batch, hd, h, sortPaths]
    · simp only [Bool.not_eq_true] at hd
      simp [convert_batch, hd]

/-- Witness for C8: the environment with a missing input directory. -/
theorem claim_C8_witness : convert_batch fsNoDir baseSettings = {} :=
  (claim_C8 fsNoDir baseSettings).1 rfl

/-! ### The fail-fast scenario `[A(success), B(failed), C(success)]` -/

def pathA : FsPath := ⟨"in".data, "a.pdf".data⟩

def pathB : FsPath := ⟨"in".data, "b.pdf".data⟩

def pathC : FsPath := ⟨"in".data, "c.pdf".data⟩

/-- A 1-page document that converts cleanly. -/
def scenarioDoc : Doc :=
  { pageCount := 1, isEncrypted := false,
    render := fun _ => some ⟨100, 100⟩, saveOk := fun _ => true }

/-- Environment for the fail-fast scenario: `b.pdf` fails to open, the
other documents convert. -/
def scenarioFS : FS :=
  { fileExists := fun _ => false,
    dirExists := fun d => decide (d = "in".data),
    listPdfs := fun _ => [pathA, pathB, pathC],
    openDoc := fun p => if p = pathB then .failure "unreadable" else .ok scenarioDoc }

/-- Settings for the fail-fast scenario. -/
def scenarioSettings : Settings :=
  { input_folder := "in".data, output_folder := "out".data, dpi := 150,
    format := "jpg".data, jpg_quality := 90, colorspace := "rgb".data,
    overwrite := false, skip_if_exists := false, max_pages_per_pdf := 0,
    fail_fast := true,
    crop := ⟨false, 0, 100, 0, 100⟩ }

/-- Claim C4: with fail-fast on, the batch loop stops right after a
document whose status is failed and only then (any other status
continues with the remaining documents and the accumulated results);
in the concrete scenario `[A(success), B(failed), C(success)]` the batch
result holds exactly the results of A and B, and C is never processed. -/
theorem claim_C4 :
    (∀ (fs : FS) (s : Settings) (d : FsPath) (rest : List FsPath) (b : BatchResult),
      s.fail_fast = true →
        ((convert_pdf fs s d).status = Status.failed →
          convertBatchLoop fs s (d :: rest) b = b.add (convert_pdf fs s d)) ∧
        ((convert_pdf fs s d).status ≠ Status.failed →
          convertBatchLoop fs s (d :: rest) b
            = convertBatchLoop fs s rest (b.add (convert_pdf fs s d)))) ∧
    (convert_pdf scenarioFS scenarioSettings pathA).status = Status.success ∧
    (convert_pdf scenarioFS scenarioSettings pathB).status = Status.failed ∧
    (convert_pdf scenarioFS scenarioSettings pathC).status = Status.success ∧
    (convert_batch scenarioFS scenarioSettings).results
      = [convert_pdf scenarioFS scenarioSettings pathA,
         convert_pdf scenarioFS scenarioSettings pathB] := by
  refine ⟨?_, by decide, by decide, by decide, ?_⟩
  · intro fs s d rest b hff
    constructor
    · intro hst
      simp only [convertBatchLoop]
      rw [if_pos ⟨hff, hst⟩]
    · intro hst
      simp only [convertBatchLoop]
      rw [if_neg fun hand => hst hand.2]
  · rfl

/-- Witness for C4: the loop on `[B]` alone stops after adding B's
failed result. -/
theorem claim_C4_witness :
    convertBatchLoop scenarioFS scenarioSettings [pathB] {}
      = BatchResult.add {} (convert_pdf scenarioFS scenarioSettings pathB) :=
  (claim_C4.1 scenarioFS scenarioSettings pathB [] {} rfl).1 (by decide)

end Pdf2Jpg
